import Mathlib

/-! Formal model of tinypng_cli.py (TinyPNG CLI). Each definition below is a
shallow embedding of a named region of the source file: preset resolution
(ImageCompressor.__init__, lines 72-90), batch file discovery and output path
computation (batch_compress, lines 372-441), the overwrite confirmation gate
and format dispatch of compress_image (lines 281-359), the shared failure
behaviour of the three encoder methods (lines 153-279), the summary ratio
computations (lines 340-344 and 435-441), and the process exit codes (click
argument validation at line 444 plus main, lines 455-515). Filesystem and
codec answers are supplied as explicit oracle arguments. -/

/-- Resolved compression parameters held on the ImageCompressor instance:
the fields self.quality, self.optimize, self.progressive set by lines 72-90. -/
structure CompressorParams where
  quality : Int
  optimize : Bool
  progressive : Bool
deriving DecidableEq

/-- Python str.lower, restricted to the ASCII data this program compares:
file extensions, preset names, and the y/Y confirmation line. -/
def pyLower (s : String) : String :=
  String.mk (s.data.map Char.toLower)

/-- ImageCompressor.__init__ (lines 72-90): the if/elif/else chain on the
preset string. The final else branch mirrors the balanced branch. -/
def ImageCompressor.init (quality : Int) (optimize progressive : Bool)
    (preset : String) : CompressorParams :=
  if preset = "fast" then
    { quality := max 70 (quality - 10), optimize := false, progressive := false }
  else if preset = "balanced" then
    { quality := quality, optimize := optimize, progressive := progressive }
  else if preset = "quality" then
    { quality := min 95 (quality + 5), optimize := true, progressive := true }
  else
    { quality := quality, optimize := optimize, progressive := progressive }

/-- The constructor with its exception channel made explicit: the body of
__init__ contains no raise statement, so construction returns a parameter
set on every input, never an error. -/
def ImageCompressor.initE (quality : Int) (optimize progressive : Bool)
    (preset : String) : Except String CompressorParams :=
  .ok (ImageCompressor.init quality optimize progressive preset)

/-- The values accepted for the preset option by click.Choice (line 452). -/
def clickPresetChoices : List String := ["fast", "balanced", "quality"]

/-- Click option validation: a value outside a Choice list is a usage error,
which in standalone mode exits the process with code 2 before main runs. -/
def clickValidateChoice (choices : List String) (v : String) : Except Nat String :=
  if v ∈ choices then .ok v else .error 2

/-- Index of the last occurrence of a character in a list, if any. -/
def lastIndexOf (c : Char) : List Char → Option Nat
  | [] => none
  | x :: xs =>
    match lastIndexOf c xs with
    | some i => some (i + 1)
    | none => if x = c then some 0 else none

/-- Python pathlib Path.suffix: the extension of a file name starting at the
last dot, dot included; empty when there is no dot, the only dot leads the
name, or the dot is the final character. -/
def path_suffix (name : String) : String :=
  match lastIndexOf '.' name.data with
  | none => ""
  | some i =>
    if 0 < i ∧ i + 1 < name.data.length then String.mk (name.data.drop i) else ""

/-- Last component of a relative path, the file name. -/
def lastComponent : List String → String
  | [] => ""
  | [a] => a
  | _ :: b :: xs => lastComponent (b :: xs)

/-- One filesystem entry below the batch input directory: its path relative
to input_dir as a nonempty component list, and whether it is a regular file.
The full list of such entries stands for what rglob sees; the entries whose
relative path has one component are what glob sees. -/
structure DirEntry where
  relPath : List String
  isFile : Bool
deriving DecidableEq

/-- File name of an entry. -/
def DirEntry.name (e : DirEntry) : String := lastComponent e.relPath

/-- The fixed recognized-extension set of batch_compress (line 390). -/
def supported_formats : List String := [".jpg", ".jpeg", ".png", ".webp", ".bmp", ".tiff"]

/-- File discovery of batch_compress (lines 392-399): rglob lists every
descendant while glob lists direct children only; the listing is then
filtered to regular files whose lowercased suffix is in the supported set. -/
def discover_files (entries : List DirEntry) (recursive : Bool) : List DirEntry :=
  let listed :=
    if recursive then entries
    else entries.filter (fun e => decide (e.relPath.length = 1))
  listed.filter (fun e => e.isFile && decide (pyLower (path_suffix e.name) ∈ supported_formats))

/-- The counters reported by batch_compress (lines 405-437): the announced
total is the number of discovered files, and success_count counts the jobs
whose compress_image call returned True. -/
structure BatchCounts where
  totalFiles : Nat
  succeeded : Nat
deriving DecidableEq

/-- Batch counters, with the per-file job outcomes supplied as an oracle.
Files the filter excluded never become jobs, so they appear in neither
counter. -/
def batch_counts (entries : List DirEntry) (recursive : Bool)
    (jobOk : DirEntry → Bool) : BatchCounts :=
  let files := discover_files entries recursive
  { totalFiles := files.length, succeeded := (files.filter jobOk).length }

/-- Relative output path of one discovered file (lines 419-422): the path
relative to input_dir when recursive, the bare file name otherwise. -/
def output_rel (e : DirEntry) (recursive : Bool) : List String :=
  if recursive then e.relPath else [e.name]

/-- Output path of one discovered file (line 424): output_dir joined with
the relative output path. -/
def output_file (outputDir : List String) (e : DirEntry) (recursive : Bool) : List String :=
  outputDir ++ output_rel e recursive

/-- Sizes and outcome of one batch job, as the loop of lines 414-433 sees
them: the input file size, the output file size, and whether compress_image
returned True. -/
structure JobRec where
  origSize : Nat
  compSize : Nat
  ok : Bool
deriving DecidableEq

/-- success_count after the loop: the number of successful jobs. -/
def successCount (jobs : List JobRec) : Nat :=
  (jobs.filter fun j => j.ok).length

/-- total_original_size after the loop (line 432): only successful jobs
contribute their input size. -/
def totalOriginalSize (jobs : List JobRec) : Nat :=
  ((jobs.filter fun j => j.ok).map fun j => j.origSize).sum

/-- total_compressed_size after the loop (line 433): only successful jobs
contribute their output size. -/
def totalCompressedSize (jobs : List JobRec) : Nat :=
  ((jobs.filter fun j => j.ok).map fun j => j.compSize).sum

/-- How a compression-ratio report can end: not printed at all, printed with
a value, or aborted by a Python ZeroDivisionError. -/
inductive RatioReport
  | notApplicable
  | ratio (r : ℚ)
  | zeroDivCrash
deriving DecidableEq

/-- The summary epilogue of batch_compress (lines 435-441): the overall
ratio is computed only when success_count is positive, and divides by
total_original_size. -/
def batchRatioReport (jobs : List JobRec) : RatioReport :=
  if 0 < successCount jobs then
    if totalOriginalSize jobs = 0 then .zeroDivCrash
    else .ratio ((1 - (totalCompressedSize jobs : ℚ) / (totalOriginalSize jobs : ℚ)) * 100)
  else .notApplicable

/-- The per-job ratio of compress_image (lines 340-344): computed only when
the job succeeded, dividing by the original file size. -/
def jobRatioReport (succeeded : Bool) (origSize compSize : Nat) : RatioReport :=
  if succeeded then
    if origSize = 0 then .zeroDivCrash
    else .ratio ((1 - (compSize : ℚ) / (origSize : ℚ)) * 100)
  else .notApplicable

/-- What probing the decoded header reports on the auto-detect path of
compress_image (lines 325-338): the img.format value, an unrecognized
format, or a failure of Image.open itself. -/
inductive ProbeResult
  | jpeg
  | png
  | webp
  | unrecognized
  | openFail
deriving DecidableEq

/-- How one encoder call (compress_jpeg, compress_png or compress_webp)
ends: the decode step raises, the save step raises after possibly having
created a file at the output path, or everything succeeds. -/
inductive EncodeOutcome
  | decodeFail
  | saveFail (partialLeft : Bool)
  | ok
deriving DecidableEq

/-- The boolean each encoder method returns for an outcome. -/
def EncodeOutcome.success : EncodeOutcome → Bool
  | .ok => true
  | _ => false

/-- Shared shape of compress_jpeg, compress_png and compress_webp (lines
153-279): open the input, transform, save to the output path; every
exception is caught, a message is printed, and False is returned. No branch
of the module removes the output path. Arguments: the outcome and whether a
file already sat at the output path. Result: the returned boolean and
whether a file sits at the output path afterwards (a decode failure happens
before the save touches the path; a save failure can leave a new file
behind and is followed by no cleanup; a successful save leaves the output). -/
def encodeStep (outcome : EncodeOutcome) (outputBefore : Bool) : Bool × Bool :=
  match outcome with
  | .decodeFail => (false, outputBefore)
  | .saveFail partialLeft => (false, outputBefore || partialLeft)
  | .ok => (true, true)

/-- Python: if not format.startswith(".") the dot is prepended (line 308). -/
def ensureDot (f : String) : String :=
  match f.data with
  | '.' :: _ => f
  | _ => "." ++ f

/-- The format token of compress_image (lines 303-309): the explicit format
flag lowercased and dotted when given, else the lowercased suffix of the
input file name. -/
def dispatchFormat (formatArg : Option String) (inputName : String) : String :=
  match formatArg with
  | none => pyLower (path_suffix inputName)
  | some f => ensureDot (pyLower f)

/-- Format dispatch of compress_image (lines 314-338). Output paths are
modeled as a pair of a stem and a suffix, so Path.with_suffix replaces the
second component. A token naming one of the four handled extensions sends
the requested path to the matching encoder; any other token probes the
decoded header and redirects the output to with_suffix of the detected
extension; when the probe recognizes nothing, or Image.open fails, the
function returns False early (lines 335 and 338). Result: the success
boolean, the path handed to an encoder if one ran, and whether the failure
was one of those early returns (which skip the generic failure line). -/
def runDispatch (formatArg : Option String) (inputName : String)
    (outBase outSuffix : String) (probe : ProbeResult)
    (encJ encP encW : EncodeOutcome) : Bool × Option (String × String) × Bool :=
  let fmt := dispatchFormat formatArg inputName
  if fmt = ".jpg" ∨ fmt = ".jpeg" then (encJ.success, some (outBase, outSuffix), false)
  else if fmt = ".png" then (encP.success, some (outBase, outSuffix), false)
  else if fmt = ".webp" then (encW.success, some (outBase, outSuffix), false)
  else
    match probe with
    | .jpeg => (encJ.success, some (outBase, ".jpg"), false)
    | .png => (encP.success, some (outBase, ".png"), false)
    | .webp => (encW.success, some (outBase, ".webp"), false)
    | .unrecognized => (false, none, true)
    | .openFail => (false, none, true)

/-- How one compress_image call ends: with the boolean the function
returns, with the EOFError that input() raises on a closed stdin and that
nothing catches, or with the FileNotFoundError that line 343 raises, also
uncaught, when the success epilogue stats the originally requested output
path and no file sits there. -/
inductive JobOutcome
  | eofError
  | statError
  | result (success : Bool)
deriving DecidableEq

/-- Observable behaviour of one compress_image call: outcome, the stdin
lines left unconsumed, how many lines were read, whether the cancellation
line of 300 was printed, whether the generic failure line of 358 was
printed, and the path handed to an encoder if one ran. -/
structure JobRun where
  outcome : JobOutcome
  stdinRest : List String
  linesRead : Nat
  cancelledMsgPrinted : Bool
  failMsgPrinted : Bool
  encoderTarget : Option (String × String)
deriving DecidableEq

/-- Lines 303-359 once the overwrite gate has been passed: dispatch runs,
and the generic failure line prints exactly for a non-early failure. On a
success the epilogue (lines 341-355) stats the input path (still present,
it was just read) and then, at line 343, the originally requested output
path, outside any try block and even when the auto-detect branch
redirected the write elsewhere. A file sits at the requested path at that
moment exactly when the encoder wrote to that very path or a file already
sat there before the job; otherwise the stat raises an uncaught
FileNotFoundError and the call never returns True. The outputExists
argument carries whether a file sat at the requested path beforehand. -/
def afterPrompt (outBase outSuffix : String) (outputExists : Bool)
    (stdinRest : List String) (linesRead : Nat) (formatArg : Option String)
    (inputName : String) (probe : ProbeResult)
    (encJ encP encW : EncodeOutcome) : JobRun :=
  let d := runDispatch formatArg inputName outBase outSuffix probe encJ encP encW
  { outcome :=
      if d.1 then
        if d.2.1 = some (outBase, outSuffix) ∨ outputExists = true then .result true
        else .statError
      else .result false,
    stdinRest := stdinRest, linesRead := linesRead,
    cancelledMsgPrinted := false, failMsgPrinted := !d.1 && !d.2.2,
    encoderTarget := d.2.1 }

/-- compress_image (lines 281-359) with filesystem and codec behaviour as
oracles: whether the input exists, the resolved output path as stem and
suffix, whether a file already sits at the output path, the overwrite flag,
the stdin lines, the explicit format flag, the input file name, the header
probe answer, and the three encoder outcomes. The overwrite gate (lines
296-301) runs before the format token is computed and before anything can
be written: it reads exactly one line, proceeds only when the lowercased
line equals y, and otherwise prints the cancellation message and returns
False without reaching mkdir or any encoder. -/
def compress_image (inputExists : Bool) (outBase outSuffix : String)
    (outputExists overwrite : Bool) (stdin : List String)
    (formatArg : Option String) (inputName : String) (probe : ProbeResult)
    (encJ encP encW : EncodeOutcome) : JobRun :=
  if inputExists = false then
    { outcome := .result false, stdinRest := stdin, linesRead := 0,
      cancelledMsgPrinted := false, failMsgPrinted := false, encoderTarget := none }
  else if outputExists && !overwrite then
    match stdin with
    | [] =>
      { outcome := .eofError, stdinRest := [], linesRead := 0,
        cancelledMsgPrinted := false, failMsgPrinted := false, encoderTarget := none }
    | line :: rest =>
      if pyLower line = "y" then
        afterPrompt outBase outSuffix outputExists rest 1 formatArg inputName probe encJ encP encW
      else
        { outcome := .result false, stdinRest := rest, linesRead := 1,
          cancelledMsgPrinted := true, failMsgPrinted := false, encoderTarget := none }
  else
    afterPrompt outBase outSuffix outputExists stdin 0 formatArg inputName probe encJ encP encW

/-- Process exit code of one invocation: click validates that the input
path exists (line 444, usage-error exit 2 on failure); main (lines
455-515) then branches on is_dir. Batch mode calls batch_compress, which
always returns None whatever the per-file outcomes (the loop of lines
414-433 only tallies them), so the process ends with 0; single-file mode
exits 1 when the path is not a regular file or when the job returns False.
The batchOks argument carries the per-file outcomes of a batch run and is
unused: no batch outcome reaches the exit code. -/
def mainExitCode (inputExists inputIsDir inputIsFile : Bool)
    (singleJobOk : Bool) (_batchOks : List Bool) : Nat :=
  if inputExists = false then 2
  else if inputIsDir = true then 0
  else if inputIsFile = false then 1
  else if singleJobOk = true then 0
  else 1

/-- Helper: the constructor on the fast preset. -/
theorem init_fast (q : Int) (o p : Bool) :
    ImageCompressor.init q o p "fast" =
      { quality := max 70 (q - 10), optimize := false, progressive := false } := rfl

/-- Helper: the constructor on the balanced preset. -/
theorem init_balanced (q : Int) (o p : Bool) :
    ImageCompressor.init q o p "balanced" =
      { quality := q, optimize := o, progressive := p } := rfl

/-- Helper: the constructor on the quality preset. -/
theorem init_quality (q : Int) (o p : Bool) :
    ImageCompressor.init q o p "quality" =
      { quality := min 95 (q + 5), optimize := true, progressive := true } := rfl

/-- Helper: the constructor on any unrecognized preset string falls through
to the final else branch, which passes everything through unchanged. -/
theorem init_other (q : Int) (o p : Bool) (s : String)
    (h1 : s ≠ "fast") (h2 : s ≠ "balanced") (h3 : s ≠ "quality") :
    ImageCompressor.init q o p s = { quality := q, optimize := o, progressive := p } := by
  unfold ImageCompressor.init
  rw [if_neg h1, if_neg h2, if_neg h3]

/-- C1: for every base quality in 1..100 and any flags, preset resolution
yields a quality in 1..100; the fast preset forces optimize and progressive
to false with quality max 70 (q - 10), hence at least 70; the quality
preset forces both flags true with quality min 95 (q + 5); the balanced
preset passes quality and both flags through unchanged. -/
theorem preset_quality_bounds (q : Int) (o p : Bool) (h1 : 1 ≤ q) (h2 : q ≤ 100) :
    (ImageCompressor.init q o p "fast").quality = max 70 (q - 10) ∧
    70 ≤ (ImageCompressor.init q o p "fast").quality ∧
    1 ≤ (ImageCompressor.init q o p "fast").quality ∧
    (ImageCompressor.init q o p "fast").quality ≤ 100 ∧
    (ImageCompressor.init q o p "fast").optimize = false ∧
    (ImageCompressor.init q o p "fast").progressive = false ∧
    (ImageCompressor.init q o p "balanced").quality = q ∧
    1 ≤ (ImageCompressor.init q o p "balanced").quality ∧
    (ImageCompressor.init q o p "balanced").quality ≤ 100 ∧
    (ImageCompressor.init q o p "balanced").optimize = o ∧
    (ImageCompressor.init q o p "balanced").progressive = p ∧
    (ImageCompressor.init q o p "quality").quality = min 95 (q + 5) ∧
    1 ≤ (ImageCompressor.init q o p "quality").quality ∧
    (ImageCompressor.init q o p "quality").quality ≤ 100 ∧
    (ImageCompressor.init q o p "quality").optimize = true ∧
    (ImageCompressor.init q o p "quality").progressive = true := by
  rw [init_fast q o p, init_balanced q o p, init_quality q o p]
  refine ⟨rfl, ?_, ?_, ?_, rfl, rfl, rfl, h1, h2, rfl, rfl, rfl, ?_, ?_, rfl, rfl⟩ <;>
    dsimp only <;> omega

/-- Witness for preset_quality_bounds at quality 85 with optimize true and
progressive false. -/
theorem preset_quality_bounds_witness :
    ((1 : Int) ≤ 85 ∧ (85 : Int) ≤ 100) ∧
    ((ImageCompressor.init 85 true false "fast").quality = max 70 (85 - 10) ∧
     70 ≤ (ImageCompressor.init 85 true false "fast").quality ∧
     1 ≤ (ImageCompressor.init 85 true false "fast").quality ∧
     (ImageCompressor.init 85 true false "fast").quality ≤ 100 ∧
     (ImageCompressor.init 85 true false "fast").optimize = false ∧
     (ImageCompressor.init 85 true false "fast").progressive = false ∧
     (ImageCompressor.init 85 true false "balanced").quality = 85 ∧
     1 ≤ (ImageCompressor.init 85 true false "balanced").quality ∧
     (ImageCompressor.init 85 true false "balanced").quality ≤ 100 ∧
     (ImageCompressor.init 85 true false "balanced").optimize = true ∧
     (ImageCompressor.init 85 true false "balanced").progressive = false ∧
     (ImageCompressor.init 85 true false "quality").quality = min 95 (85 + 5) ∧
     1 ≤ (ImageCompressor.init 85 true false "quality").quality ∧
     (ImageCompressor.init 85 true false "quality").quality ≤ 100 ∧
     (ImageCompressor.init 85 true false "quality").optimize = true ∧
     (ImageCompressor.init 85 true false "quality").progressive = true) :=
  ⟨⟨by norm_num, by norm_num⟩,
   preset_quality_bounds 85 true false (by norm_num) (by norm_num)⟩

/-- C7 counterexample: the constructor accepts the unrecognized preset name
turbo and produces a parameter set, because its body raises nothing; it
does not fail with an InvalidPreset error. -/
theorem invalid_preset_accepted :
    clickPresetChoices.contains "turbo" = false ∧
    ImageCompressor.initE 85 true true "turbo" =
      .ok { quality := 85, optimize := true, progressive := true } :=
  ⟨rfl, rfl⟩

/-- C7 amended: an unrecognized preset name does not make parameter
resolution fail; the constructor falls through to the balanced behaviour,
passing quality and both flags through unchanged, while the CLI choice
validation of the preset option rejects the value with a usage error (exit
code 2) before any constructor runs. -/
theorem invalid_preset_fallback (q : Int) (o p : Bool) (s : String)
    (h1 : s ≠ "fast") (h2 : s ≠ "balanced") (h3 : s ≠ "quality") :
    clickValidateChoice clickPresetChoices s = .error 2 ∧
    ImageCompressor.initE q o p s =
      .ok { quality := q, optimize := o, progressive := p } := by
  constructor
  · have hmem : s ∉ clickPresetChoices := by
      simp [clickPresetChoices, h1, h2, h3]
    simp [clickValidateChoice, hmem]
  · unfold ImageCompressor.initE
    rw [init_other q o p s h1 h2 h3]

/-- Witness for invalid_preset_fallback at the preset name turbo. -/
theorem invalid_preset_fallback_witness :
    ("turbo" ≠ "fast" ∧ "turbo" ≠ "balanced" ∧ "turbo" ≠ "quality") ∧
    (clickValidateChoice clickPresetChoices "turbo" = .error 2 ∧
     ImageCompressor.initE 90 false true "turbo" =
       .ok { quality := 90, optimize := false, progressive := true }) :=
  ⟨⟨by decide, by decide, by decide⟩,
   invalid_preset_fallback 90 false true "turbo" (by decide) (by decide) (by decide)⟩

/-- C8 counterexample: explicitly supplied flag values do not win under the
fast and quality presets: optimize and progressive supplied as true are
forced to false by fast, and supplied as false are forced to true by
quality. -/
theorem override_ignored_by_presets :
    (ImageCompressor.init 85 true true "fast").optimize = false ∧
    (ImageCompressor.init 85 true true "fast").progressive = false ∧
    (ImageCompressor.init 85 false false "quality").optimize = true ∧
    (ImageCompressor.init 85 false false "quality").progressive = true :=
  ⟨rfl, rfl, rfl, rfl⟩

/-- C8 amended: supplied optimize and progressive values are carried into
the resolved parameter set only by the balanced preset (and, unchanged, by
unrecognized preset names, per invalid_preset_fallback); the fast preset
forces both flags false and the quality preset forces both flags true,
regardless of the supplied values; the quality number follows the preset
floor and ceiling in every case. -/
theorem override_resolution (q : Int) (o p : Bool) :
    ImageCompressor.init q o p "balanced" =
      { quality := q, optimize := o, progressive := p } ∧
    ImageCompressor.init q o p "fast" =
      { quality := max 70 (q - 10), optimize := false, progressive := false } ∧
    ImageCompressor.init q o p "quality" =
      { quality := min 95 (q + 5), optimize := true, progressive := true } :=
  ⟨init_balanced q o p, init_fast q o p, init_quality q o p⟩

/-- C2: batch discovery keeps exactly the regular files whose lowercased
extension lies in the supported set, restricted to direct children when not
recursive; excluded entries never enter the batch, so they appear in no
counter; the directory holding exactly a.png, b.jpg and notes.txt yields a
reported total of 2 whatever the per-file job outcomes. -/
theorem batch_file_selection (entries : List DirEntry) (recursive : Bool)
    (jobOk : DirEntry → Bool) (e : DirEntry) :
    (e ∈ discover_files entries recursive ↔
      e ∈ entries ∧ (recursive = true ∨ e.relPath.length = 1) ∧ e.isFile = true ∧
        pyLower (path_suffix e.name) ∈ supported_formats) ∧
    (batch_counts entries recursive jobOk).totalFiles =
      (discover_files entries recursive).length ∧
    (batch_counts entries recursive jobOk).succeeded ≤
      (batch_counts entries recursive jobOk).totalFiles ∧
    (batch_counts [⟨["a.png"], true⟩, ⟨["b.jpg"], true⟩, ⟨["notes.txt"], true⟩]
      false jobOk).totalFiles = 2 := by
  refine ⟨?_, rfl, List.length_filter_le _ _, rfl⟩
  cases recursive <;>
    (simp [discover_files, List.mem_filter, Bool.and_eq_true, decide_eq_true_iff]; try tauto)

/-- C3: a recursive batch job writes to the output directory joined with
the path of the file relative to the input directory, a non-recursive job
to the output directory joined with the bare file name; in the concrete
tree root with x.png and sub/y.png, recursive discovery finds exactly the
two files and sends them to out/x.png and out/sub/y.png. -/
theorem batch_output_paths (d : List String) (e : DirEntry) :
    output_file d e true = d ++ e.relPath ∧
    output_file d e false = d ++ [e.name] ∧
    discover_files
        [⟨["x.png"], true⟩, ⟨["sub"], false⟩, ⟨["sub", "y.png"], true⟩] true =
      [⟨["x.png"], true⟩, ⟨["sub", "y.png"], true⟩] ∧
    output_file ["out"] ⟨["x.png"], true⟩ true = ["out", "x.png"] ∧
    output_file ["out"] ⟨["sub", "y.png"], true⟩ true = ["out", "sub", "y.png"] :=
  ⟨rfl, rfl, by decide, rfl, rfl⟩

/-- C5: the process exits 0 on success, including every batch run whatever
its per-file outcomes; a failed single-file job exits 1; a missing input
path is rejected by the click exists check with usage-error exit 2, hence
nonzero; an existing input path that is neither a directory nor a regular
file exits 1; and the batch exit code does not depend on the per-file
outcomes at all. -/
theorem exit_code_semantics (d f j : Bool) (oks oks2 : List Bool) :
    mainExitCode true true f j oks = 0 ∧
    mainExitCode true false true true oks = 0 ∧
    mainExitCode true false true false oks = 1 ∧
    mainExitCode false d f j oks = 2 ∧
    0 < mainExitCode false d f j oks ∧
    mainExitCode true false false j oks = 1 ∧
    mainExitCode true true f j oks = mainExitCode true true f j oks2 :=
  ⟨rfl, rfl, rfl, rfl, Nat.succ_pos 1, rfl, rfl⟩

/-- Helper: a positive success count with positive sizes for successful
jobs forces a positive total original size. -/
theorem totalOriginalSize_pos (jobs : List JobRec)
    (hsz : ∀ j ∈ jobs, j.ok = true → 0 < j.origSize)
    (hpos : 0 < successCount jobs) : 0 < totalOriginalSize jobs := by
  unfold totalOriginalSize
  unfold successCount at hpos
  rw [List.length_pos] at hpos
  refine List.sum_pos _ ?_ ?_
  · intro x hx
    rw [List.mem_map] at hx
    obtain ⟨j, hj, hxj⟩ := hx
    rw [List.mem_filter] at hj
    exact hxj ▸ hsz j hj.1 hj.2
  · simpa using hpos

/-- C6: with zero successful jobs the batch summary reports the overall
ratio as not applicable and performs no division; when the original size
of every successful job is positive (a successfully decoded input file is
never empty), neither the aggregate nor the per-job ratio computation ever
divides by a zero original size. -/
theorem zero_success_ratio_guard (jobs : List JobRec) (b : Bool) (o c : Nat)
    (hsz : ∀ j ∈ jobs, j.ok = true → 0 < j.origSize) (ho : b = true → 0 < o) :
    (successCount jobs = 0 → batchRatioReport jobs = .notApplicable) ∧
    batchRatioReport jobs ≠ .zeroDivCrash ∧
    jobRatioReport b o c ≠ .zeroDivCrash ∧
    (b = false → jobRatioReport b o c = .notApplicable) := by
  refine ⟨?_, ?_, ?_, ?_⟩
  · intro h
    unfold batchRatioReport
    rw [h]
    rfl
  · unfold batchRatioReport
    by_cases hp : 0 < successCount jobs
    · rw [if_pos hp, if_neg (Nat.pos_iff_ne_zero.mp (totalOriginalSize_pos jobs hsz hp))]
      intro h
      exact RatioReport.noConfusion h
    · rw [if_neg hp]
      intro h
      exact RatioReport.noConfusion h
  · unfold jobRatioReport
    cases b
    · intro h
      exact RatioReport.noConfusion h
    · rw [if_pos rfl, if_neg (Nat.pos_iff_ne_zero.mp (ho rfl))]
      intro h
      exact RatioReport.noConfusion h
  · intro hb
    subst hb
    rfl

/-- Witness for zero_success_ratio_guard: one failed job of size 100, and
a per-job report for a failed job. -/
theorem zero_success_ratio_guard_witness :
    ((∀ j ∈ [({ origSize := 100, compSize := 40, ok := false } : JobRec)],
        j.ok = true → 0 < j.origSize) ∧ (false = true → 0 < 0)) ∧
    ((successCount [({ origSize := 100, compSize := 40, ok := false } : JobRec)] = 0 →
        batchRatioReport [({ origSize := 100, compSize := 40, ok := false } : JobRec)] =
          .notApplicable) ∧
     batchRatioReport [({ origSize := 100, compSize := 40, ok := false } : JobRec)] ≠
       .zeroDivCrash ∧
     jobRatioReport false 0 0 ≠ .zeroDivCrash ∧
     (false = false → jobRatioReport false 0 0 = .notApplicable)) :=
  ⟨⟨by decide, by decide⟩,
   zero_success_ratio_guard [{ origSize := 100, compSize := 40, ok := false }]
     false 0 0 (by decide) (by decide)⟩

/-- C9 counterexample: a failure during the save can leave a partially
written file at a previously empty output path: the encoder returns false
yet a file sits there afterwards, because no branch of the module removes
the output path. -/
theorem partial_output_left_behind :
    (encodeStep (.saveFail true) false).1 = false ∧
    (encodeStep (.saveFail true) false).2 = true :=
  ⟨rfl, rfl⟩

/-- C9 amended: a decode failure happens before the save touches the
output path, so a job failing there creates nothing; a failure during the
save returns false without any cleanup, so a partially written file, when
the save leaves one, remains at the output path; only a fully successful
save guarantees the output file. -/
theorem failure_output_state (before partialLeft : Bool) :
    encodeStep .decodeFail before = (false, before) ∧
    encodeStep (.saveFail partialLeft) before = (false, before || partialLeft) ∧
    encodeStep .ok before = (true, true) :=
  ⟨rfl, rfl, rfl⟩

/-- Helper: with the output present and overwrite off, a stdin line whose
lowercased form is not y cancels the job: one line consumed, result False,
cancellation message printed, generic failure line not printed, no encoder
reached. -/
theorem compress_image_cancel (outBase outSuffix line : String)
    (rest : List String) (formatArg : Option String) (inputName : String)
    (probe : ProbeResult) (encJ encP encW : EncodeOutcome)
    (h : pyLower line ≠ "y") :
    compress_image true outBase outSuffix true false (line :: rest)
        formatArg inputName probe encJ encP encW =
      { outcome := .result false, stdinRest := rest, linesRead := 1,
        cancelledMsgPrinted := true, failMsgPrinted := false, encoderTarget := none } := by
  unfold compress_image
  simp [h]

/-- Helper: with the output present and overwrite off, a stdin line whose
lowercased form is y lets the job continue past the gate with one line
consumed. -/
theorem compress_image_confirm (outBase outSuffix line : String)
    (rest : List String) (formatArg : Option String) (inputName : String)
    (probe : ProbeResult) (encJ encP encW : EncodeOutcome)
    (h : pyLower line = "y") :
    compress_image true outBase outSuffix true false (line :: rest)
        formatArg inputName probe encJ encP encW =
      afterPrompt outBase outSuffix true rest 1 formatArg inputName probe encJ encP encW := by
  unfold compress_image
  simp [h]

/-- Helper: with no file at the output path, the gate is skipped and no
stdin line is consumed. -/
theorem compress_image_no_prompt (outBase outSuffix : String)
    (stdin : List String) (formatArg : Option String) (inputName : String)
    (probe : ProbeResult) (encJ encP encW : EncodeOutcome) :
    compress_image true outBase outSuffix false false stdin
        formatArg inputName probe encJ encP encW =
      afterPrompt outBase outSuffix false stdin 0 formatArg inputName probe encJ encP encW := by
  unfold compress_image
  simp

/-- Helper: with the overwrite flag set, the gate is skipped whatever sits
at the output path, and no stdin line is consumed. -/
theorem compress_image_overwrite (outBase outSuffix : String)
    (outputExists : Bool) (stdin : List String) (formatArg : Option String)
    (inputName : String) (probe : ProbeResult) (encJ encP encW : EncodeOutcome) :
    compress_image true outBase outSuffix outputExists true stdin
        formatArg inputName probe encJ encP encW =
      afterPrompt outBase outSuffix outputExists stdin 0 formatArg inputName
        probe encJ encP encW := by
  unfold compress_image
  simp

/-- C4 counterexample: with the output present and overwrite off, the
stdin line n makes the job return the same result value as a plainly
failing job returns (False), and single-file mode maps that shared value
to exit code 1; so the skip is not reported as a non-error outcome
distinguishable from a failure: only the console message differs. -/
theorem overwrite_skip_not_distinct :
    (compress_image true "out" ".png" true false ["n"] none "a.png"
        .png .ok .ok .ok).outcome = .result false ∧
    (compress_image true "out" ".png" true false ["n"] none "a.png"
        .png .ok .ok .ok).cancelledMsgPrinted = true ∧
    (compress_image true "out" ".png" false false [] none "a.png"
        .png .ok .decodeFail .ok).outcome = .result false ∧
    (compress_image true "out" ".png" false false [] none "a.png"
        .png .ok .decodeFail .ok).failMsgPrinted = true ∧
    mainExitCode true false true false [] = 1 := by
  refine ⟨?_, ?_, ?_, ?_, rfl⟩ <;> decide

/-- C4 amended: with the output present and overwrite off, exactly one
stdin line is read before anything can be written; the job proceeds past
the gate exactly when the lowercased line equals y (so exactly on y or Y);
on any other line nothing reaches an encoder, the cancellation message is
printed rather than the generic failure line, and the job returns the same
False as a failed job, which single-file mode turns into exit code 1; the
skip is distinguishable from a failure only in the console text. -/
theorem overwrite_prompt_behavior (outBase outSuffix line : String)
    (rest : List String) (formatArg : Option String) (inputName : String)
    (probe : ProbeResult) (encJ encP encW : EncodeOutcome)
    (h : pyLower line ≠ "y") :
    (compress_image true outBase outSuffix true false (line :: rest)
        formatArg inputName probe encJ encP encW).linesRead = 1 ∧
    (compress_image true outBase outSuffix true false (line :: rest)
        formatArg inputName probe encJ encP encW).stdinRest = rest ∧
    (compress_image true outBase outSuffix true false (line :: rest)
        formatArg inputName probe encJ encP encW).outcome = .result false ∧
    (compress_image true outBase outSuffix true false (line :: rest)
        formatArg inputName probe encJ encP encW).cancelledMsgPrinted = true ∧
    (compress_image true outBase outSuffix true false (line :: rest)
        formatArg inputName probe encJ encP encW).failMsgPrinted = false ∧
    (compress_image true outBase outSuffix true false (line :: rest)
        formatArg inputName probe encJ encP encW).encoderTarget = none ∧
    (compress_image true outBase outSuffix true false ("y" :: rest)
        formatArg inputName probe encJ encP encW).linesRead = 1 ∧
    (compress_image true outBase outSuffix true false ("y" :: rest)
        formatArg inputName probe encJ encP encW).cancelledMsgPrinted = false ∧
    (compress_image true outBase outSuffix true false ("Y" :: rest)
        formatArg inputName probe encJ encP encW).cancelledMsgPrinted = false ∧
    mainExitCode true false true false [] = 1 := by
  rw [compress_image_cancel outBase outSuffix line rest formatArg inputName probe encJ encP encW h,
    compress_image_confirm outBase outSuffix "y" rest formatArg inputName probe encJ encP encW rfl,
    compress_image_confirm outBase outSuffix "Y" rest formatArg inputName probe encJ encP encW rfl]
  exact ⟨rfl, rfl, rfl, rfl, rfl, rfl, rfl, rfl, rfl, rfl⟩

/-- Witness for overwrite_prompt_behavior on the stdin line n. -/
theorem overwrite_prompt_behavior_witness :
    pyLower "n" ≠ "y" ∧
    ((compress_image true "out" ".png" true false ["n", "spare"] none "a.png"
        .png .ok .ok .ok).linesRead = 1 ∧
     (compress_image true "out" ".png" true false ["n", "spare"] none "a.png"
        .png .ok .ok .ok).stdinRest = ["spare"] ∧
     (compress_image true "out" ".png" true false ["n", "spare"] none "a.png"
        .png .ok .ok .ok).outcome = .result false ∧
     (compress_image true "out" ".png" true false ["n", "spare"] none "a.png"
        .png .ok .ok .ok).cancelledMsgPrinted = true ∧
     (compress_image true "out" ".png" true false ["n", "spare"] none "a.png"
        .png .ok .ok .ok).failMsgPrinted = false ∧
     (compress_image true "out" ".png" true false ["n", "spare"] none "a.png"
        .png .ok .ok .ok).encoderTarget = none ∧
     (compress_image true "out" ".png" true false ["y", "spare"] none "a.png"
        .png .ok .ok .ok).linesRead = 1 ∧
     (compress_image true "out" ".png" true false ["y", "spare"] none "a.png"
        .png .ok .ok .ok).cancelledMsgPrinted = false ∧
     (compress_image true "out" ".png" true false ["Y", "spare"] none "a.png"
        .png .ok .ok .ok).cancelledMsgPrinted = false ∧
     mainExitCode true false true false [] = 1) :=
  ⟨by decide,
   overwrite_prompt_behavior "out" ".png" "n" ["spare"] none "a.png"
     .png .ok .ok .ok (by decide)⟩

/-- Helper: when the format token names none of the four handled
extensions, dispatch reduces to the probe match of lines 325-338. -/
theorem runDispatch_fallback (formatArg : Option String)
    (inputName outBase outSuffix : String) (probe : ProbeResult)
    (encJ encP encW : EncodeOutcome)
    (h1 : dispatchFormat formatArg inputName ≠ ".jpg")
    (h2 : dispatchFormat formatArg inputName ≠ ".jpeg")
    (h3 : dispatchFormat formatArg inputName ≠ ".png")
    (h4 : dispatchFormat formatArg inputName ≠ ".webp") :
    runDispatch formatArg inputName outBase outSuffix probe encJ encP encW =
      match probe with
      | .jpeg => (encJ.success, some (outBase, ".jpg"), false)
      | .png => (encP.success, some (outBase, ".png"), false)
      | .webp => (encW.success, some (outBase, ".webp"), false)
      | .unrecognized => (false, none, true)
      | .openFail => (false, none, true) := by
  unfold runDispatch
  rw [if_neg (by simp [h1, h2]), if_neg h3, if_neg h4]

/-- C10 counterexample: a bmp input with no explicit format flag, probed
as JPEG with every encoder succeeding: the write is redirected to the
requested path with its suffix replaced by .jpg, exactly as the claim
says, yet the job does not return True: line 343 then stats the
originally requested .bmp path, where no file sits, and the uncaught
FileNotFoundError aborts the call — the job fails although the probe
recognized the format, refuting the clause that the job fails only when
the probe also fails to recognize it. -/
theorem auto_detect_stat_crash :
    (compress_image true "o" ".bmp" false false [] none "photo.bmp"
        .jpeg .ok .ok .ok).encoderTarget = some ("o", ".jpg") ∧
    (compress_image true "o" ".bmp" false false [] none "photo.bmp"
        .jpeg .ok .ok .ok).outcome = .statError := by
  refine ⟨?_, ?_⟩ <;> decide

/-- C10 amended: when the format token (explicit flag if given, else the
lowercased input extension) names none of the four handled extensions, the
job probes the decoded header: a recognized probe sends the write to the
requested output path with its suffix replaced by the detected extension,
and the dispatch gives up without an encoder exactly when the probe
recognizes nothing or the open itself fails; but after a successful
redirected write the epilogue stats the originally requested path, so the
job returns True only when a file sits there — the detected extension
equals the requested suffix, or a file already sat at the requested path —
and otherwise ends in an uncaught FileNotFoundError instead of returning
True. Encoders are fixed to succeed so the statement isolates the
dispatch and the epilogue. -/
theorem auto_detect_redirect (formatArg : Option String)
    (inputName outBase outSuffix : String) (probe : ProbeResult)
    (h : dispatchFormat formatArg inputName ∉ [".jpg", ".jpeg", ".png", ".webp"]) :
    (probe = .jpeg →
      (compress_image true outBase outSuffix false false [] formatArg inputName
          probe .ok .ok .ok).encoderTarget = some (outBase, ".jpg") ∧
      (outSuffix = ".jpg" →
        (compress_image true outBase outSuffix false false [] formatArg inputName
            probe .ok .ok .ok).outcome = .result true) ∧
      (outSuffix ≠ ".jpg" →
        (compress_image true outBase outSuffix false false [] formatArg inputName
            probe .ok .ok .ok).outcome = .statError) ∧
      (compress_image true outBase outSuffix true true [] formatArg inputName
          probe .ok .ok .ok).outcome = .result true) ∧
    (probe = .png →
      (compress_image true outBase outSuffix false false [] formatArg inputName
          probe .ok .ok .ok).encoderTarget = some (outBase, ".png") ∧
      (outSuffix = ".png" →
        (compress_image true outBase outSuffix false false [] formatArg inputName
            probe .ok .ok .ok).outcome = .result true) ∧
      (outSuffix ≠ ".png" →
        (compress_image true outBase outSuffix false false [] formatArg inputName
            probe .ok .ok .ok).outcome = .statError) ∧
      (compress_image true outBase outSuffix true true [] formatArg inputName
          probe .ok .ok .ok).outcome = .result true) ∧
    (probe = .webp →
      (compress_image true outBase outSuffix false false [] formatArg inputName
          probe .ok .ok .ok).encoderTarget = some (outBase, ".webp") ∧
      (outSuffix = ".webp" →
        (compress_image true outBase outSuffix false false [] formatArg inputName
            probe .ok .ok .ok).outcome = .result true) ∧
      (outSuffix ≠ ".webp" →
        (compress_image true outBase outSuffix false false [] formatArg inputName
            probe .ok .ok .ok).outcome = .statError) ∧
      (compress_image true outBase outSuffix true true [] formatArg inputName
          probe .ok .ok .ok).outcome = .result true) ∧
    (probe = .unrecognized ∨ probe = .openFail →
      (compress_image true outBase outSuffix false false [] formatArg inputName
          probe .ok .ok .ok).outcome = .result false ∧
      (compress_image true outBase outSuffix false false [] formatArg inputName
          probe .ok .ok .ok).encoderTarget = none) := by
  simp only [List.mem_cons, List.not_mem_nil, or_false, not_or] at h
  obtain ⟨h1, h2, h3, h4⟩ := h
  have hd := runDispatch_fallback formatArg inputName outBase outSuffix probe
    .ok .ok .ok h1 h2 h3 h4
  refine ⟨?_, ?_, ?_, ?_⟩
  · intro hp
    subst hp
    rw [compress_image_no_prompt, compress_image_overwrite]
    unfold afterPrompt
    rw [hd]
    refine ⟨by simp [EncodeOutcome.success], ?_, ?_, by simp [EncodeOutcome.success]⟩
    · intro hs
      subst hs
      simp [EncodeOutcome.success]
    · intro hs
      have hs2 : (".jpg" : String) ≠ outSuffix := fun e => hs e.symm
      simp [EncodeOutcome.success, hs2]
  · intro hp
    subst hp
    rw [compress_image_no_prompt, compress_image_overwrite]
    unfold afterPrompt
    rw [hd]
    refine ⟨by simp [EncodeOutcome.success], ?_, ?_, by simp [EncodeOutcome.success]⟩
    · intro hs
      subst hs
      simp [EncodeOutcome.success]
    · intro hs
      have hs2 : (".png" : String) ≠ outSuffix := fun e => hs e.symm
      simp [EncodeOutcome.success, hs2]
  · intro hp
    subst hp
    rw [compress_image_no_prompt, compress_image_overwrite]
    unfold afterPrompt
    rw [hd]
    refine ⟨by simp [EncodeOutcome.success], ?_, ?_, by simp [EncodeOutcome.success]⟩
    · intro hs
      subst hs
      simp [EncodeOutcome.success]
    · intro hs
      have hs2 : (".webp" : String) ≠ outSuffix := fun e => hs e.symm
      simp [EncodeOutcome.success, hs2]
  · rintro (hp | hp) <;>
      (subst hp; rw [compress_image_no_prompt]; unfold afterPrompt; rw [hd];
        exact ⟨by simp [EncodeOutcome.success], by simp⟩)
/-- Witness for auto_detect_redirect: a bmp input with no explicit format
flag, probed as JPEG: the write lands at the requested path with suffix
.jpg, the fresh .bmp request ends in the uncaught stat error, and the
variant with a file already at the requested path returns True. -/
theorem auto_detect_redirect_witness :
    dispatchFormat none "photo.bmp" ∉ [".jpg", ".jpeg", ".png", ".webp"] ∧
    ((ProbeResult.jpeg = ProbeResult.jpeg →
      (compress_image true "o" ".bmp" false false [] none "photo.bmp"
          .jpeg .ok .ok .ok).encoderTarget = some ("o", ".jpg") ∧
      ((".bmp" : String) = ".jpg" →
        (compress_image true "o" ".bmp" false false [] none "photo.bmp"
            .jpeg .ok .ok .ok).outcome = .result true) ∧
      ((".bmp" : String) ≠ ".jpg" →
        (compress_image true "o" ".bmp" false false [] none "photo.bmp"
            .jpeg .ok .ok .ok).outcome = .statError) ∧
      (compress_image true "o" ".bmp" true true [] none "photo.bmp"
          .jpeg .ok .ok .ok).outcome = .result true) ∧
    (ProbeResult.jpeg = ProbeResult.png →
      (compress_image true "o" ".bmp" false false [] none "photo.bmp"
          .jpeg .ok .ok .ok).encoderTarget = some ("o", ".png") ∧
      ((".bmp" : String) = ".png" →
        (compress_image true "o" ".bmp" false false [] none "photo.bmp"
            .jpeg .ok .ok .ok).outcome = .result true) ∧
      ((".bmp" : String) ≠ ".png" →
        (compress_image true "o" ".bmp" false false [] none "photo.bmp"
            .jpeg .ok .ok .ok).outcome = .statError) ∧
      (compress_image true "o" ".bmp" true true [] none "photo.bmp"
          .jpeg .ok .ok .ok).outcome = .result true) ∧
    (ProbeResult.jpeg = ProbeResult.webp →
      (compress_image true "o" ".bmp" false false [] none "photo.bmp"
          .jpeg .ok .ok .ok).encoderTarget = some ("o", ".webp") ∧
      ((".bmp" : String) = ".webp" →
        (compress_image true "o" ".bmp" false false [] none "photo.bmp"
            .jpeg .ok .ok .ok).outcome = .result true) ∧
      ((".bmp" : String) ≠ ".webp" →
        (compress_image true "o" ".bmp" false false [] none "photo.bmp"
            .jpeg .ok .ok .ok).outcome = .statError) ∧
      (compress_image true "o" ".bmp" true true [] none "photo.bmp"
          .jpeg .ok .ok .ok).outcome = .result true) ∧
    (ProbeResult.jpeg = ProbeResult.unrecognized ∨ ProbeResult.jpeg = ProbeResult.openFail →
      (compress_image true "o" ".bmp" false false [] none "photo.bmp"
          .jpeg .ok .ok .ok).outcome = .result false ∧
      (compress_image true "o" ".bmp" false false [] none "photo.bmp"
          .jpeg .ok .ok .ok).encoderTarget = none)) :=
  ⟨by decide, auto_detect_redirect none "photo.bmp" "o" ".bmp" .jpeg (by decide)⟩
